import Mathlib

/-!
Verification of the wb-notifier specification against a shallow embedding of
the repository's code.

The embedding covers:
* the bargraph driver (`src/driver/src/bargraph.rs`): `set_led_no`,
  display-buffer updates, bus writes;
* the LCD driver (`src/driver/src/lcd.rs`): `write_msg` as the sequence of
  operations it issues to the HD44780, plus an interface-level model of the
  HD44780 display consuming those operations;
* the server request handlers (`src/server/src/tasks.rs`): `set_led`,
  `notify`, `ack`, each as a pure transformer of the bargraph state that also
  emits its externally visible actions (driver call, blinker-channel send,
  reply send) in program order;
* the blinker background task (`src/server/src/tasks.rs`, `blink`): its state
  machine on `{Init, Off, Fast, Med, Slow}`, timer durations, display-mode
  commands and event transitions;
* the UDP client (`src/client/src/lib.rs`): the send/receive/retry loop of
  `Client::raw`, parameterized by an environment describing what each receive
  attempt returns.

Machine integers (`u8`, `u32`) are modelled as `Nat`; the arithmetic involved
(`% 4`, `/ 4`, `% 3`, comparisons with 23 and 80) never overflows.
-/

namespace WbNotifier

/-- LED colors, from `wb_notifier_proto` (`src/proto/src/bargraph.rs`):
`{Off, Green, Red, Yellow}`. -/
inductive LedColor where
  | Off
  | Green
  | Red
  | Yellow
deriving DecidableEq, Repr

/-- Notification status, from `wb_notifier_proto` (`src/proto/src/bargraph.rs`):
`{Ok, Warning, Error}`. -/
inductive Status where
  | Ok
  | Warning
  | Error
deriving DecidableEq, Repr

/-- The payload-free error type carried by negative replies
(`src/proto/src/error.rs`, `struct RequestError {}`). -/
inductive RequestError where
  | mk
deriving DecidableEq, Repr

/-- Driver-level error of the bargraph driver
(`src/driver/src/bargraph.rs`, `enum Error<E> { Hal(E), OutOfRange }`). -/
inductive DriverError where
  | Hal
  | OutOfRange
deriving DecidableEq, Repr

/-- State of the bargraph driver: the HT16K33 display buffer (a bit per
`(row, common)` cell) together with a count of bus writes performed by
`write_display_buffer`.  The buffer models the `buffer` field of the
`HT16K33` driver the `Bargraph` struct wraps. -/
structure Bargraph where
  buffer : Nat → Nat → Bool
  busWrites : Nat

/-- An all-clear bargraph state, used to instantiate theorems on a concrete
device. -/
def bgInit : Bargraph :=
  { buffer := fun _ _ => false, busWrites := 0 }

/-- Model of `HT16K33::update_display_buffer(LedLocation::new(row, col), enabled)`:
set one cell of the in-memory display buffer; no bus traffic. -/
def updateDisplayBuffer (st : Bargraph) (row col : Nat) (enabled : Bool) : Bargraph :=
  { st with buffer := fun r c => if r = row ∧ c = col then enabled else st.buffer r c }

/-- Model of `HT16K33::write_display_buffer()`: one I²C bus write of the whole
buffer. -/
def writeDisplayBuffer (st : Bargraph) : Bargraph :=
  { st with busWrites := st.busWrites + 1 }

/-- Row computation of `Bargraph::set_led_no`
(`src/driver/src/bargraph.rs` line 66):
`let row = if num >= 12 { num % 4 + 4 } else { num % 4 };`. -/
def led_row (num : Nat) : Nat :=
  if num ≥ 12 then num % 4 + 4 else num % 4

/-- Column computation of `Bargraph::set_led_no`
(`src/driver/src/bargraph.rs` line 67): `let col = (num / 4) % 3;`. -/
def led_col (num : Nat) : Nat :=
  (num / 4) % 3

/-- `Bargraph::set_led_no(num, color)` (`src/driver/src/bargraph.rs`
lines 60–86).  Rejects `num > 23` before touching the driver; otherwise
clears the red cell `(row, col)` and the green cell `(row + 8, col)`, sets
the red cell for `Red | Yellow`, sets the green cell for `Green | Yellow`,
and finally writes the display buffer to the bus. -/
def set_led_no (num : Nat) (color : LedColor) (st : Bargraph) :
    Except DriverError Unit × Bargraph :=
  if num > 23 then
    (.error .OutOfRange, st)
  else
    let row := led_row num
    let col := led_col num
    let st1 := updateDisplayBuffer st row col false
    let st2 := updateDisplayBuffer st1 (row + 8) col false
    let st3 := if color = .Red ∨ color = .Yellow then
        updateDisplayBuffer st2 row col true else st2
    let st4 := if color = .Green ∨ color = .Yellow then
        updateDisplayBuffer st3 (row + 8) col true else st3
    (.ok (), writeDisplayBuffer st4)

/-- Modelled from the spec: `Bargraph::clear_all` is invoked by the ack
handler (`src/server/src/tasks.rs` line 153) but its definition is absent
from `src/driver/src/bargraph.rs` in this tree.  The spec says the no-`num`
ack "clears all LEDs" (scenario S3: with LEDs 0..3 lit, `Ack{num=None}`
clears all four), so every display-buffer cell is cleared and the buffer is
written to the bus. -/
def clear_all (st : Bargraph) : Except DriverError Unit × Bargraph :=
  (.ok (), writeDisplayBuffer { st with buffer := fun _ _ => false })

/-- Display modes of the HT16K33 (`ht16k33::Display`), as used by the blink
task: steady off/on and the three blink rates. -/
inductive Display where
  | OFF
  | ON
  | TWO_HZ
  | ONE_HZ
  | HALF_HZ
deriving DecidableEq, Repr

/-- Blink states of the background task
(`src/server/src/tasks.rs`, `enum BlinkState`). -/
inductive BlinkState where
  | Init
  | Off
  | Fast
  | Med
  | Slow
deriving DecidableEq, Repr

/-- Events sent from the request handlers to the blink task
(`src/server/src/tasks.rs`, `enum BlinkInfo`). -/
inductive BlinkInfo where
  | LedSet
  | LedClear
deriving DecidableEq, Repr

/-- Display-mode command issued on entering a blink state
(`blink`, lines 280–330): `Init` spawns a pending future and issues nothing;
`Off` issues `Display::ON`; `Fast`/`Med`/`Slow` issue `TWO_HZ`/`ONE_HZ`/`HALF_HZ`. -/
def displayCmd : BlinkState → Option Display
  | .Init => none
  | .Off => some .ON
  | .Fast => some .TWO_HZ
  | .Med => some .ONE_HZ
  | .Slow => some .HALF_HZ

/-- Timer spawned on entering a blink state (`blink`, lines 280–330), in
seconds: none for `Init`/`Off` (a forever-pending future), 60 for `Fast`,
300 for `Med`, 900 for `Slow`. -/
def timerDur : BlinkState → Option Nat
  | .Init => none
  | .Off => none
  | .Fast => some 60
  | .Med => some 300
  | .Slow => some 900

/-- Transition taken when the timer-done channel fires first
(`blink`, lines 333–346, the `FinishedFirst::Them` arm). -/
def stepTimer : BlinkState → BlinkState
  | .Init => .Off
  | .Slow => .Off
  | .Off => .Fast
  | .Fast => .Med
  | .Med => .Slow

/-- Transition taken when a `BlinkInfo` event arrives first
(`blink`, lines 355–358): `LedSet` re-enters `Fast` (restarting its timer),
`LedClear` enters `Off`, from any state. -/
def stepEvent (_s : BlinkState) : BlinkInfo → BlinkState
  | .LedSet => .Fast
  | .LedClear => .Off

/-- Run of the blink loop with no incoming events: starting in state `s` at
absolute time `t`, for up to `n` iterations, collect the display-mode
commands issued and the time each is issued; stop when the state spawns no
timer (the loop then waits forever). -/
def runNoEvents : Nat → BlinkState → Nat → List (Nat × Display)
  | 0, _, _ => []
  | n + 1, s, t =>
    (match displayCmd s with
      | some c => [(t, c)]
      | none => []) ++
    (match timerDur s with
      | some d => runNoEvents n (stepTimer s) (t + d)
      | none => [])

/-- C1: for the blinker task of a bargraph, from `Off` a `LedSet` event moves
the state to `Fast` (display command 2 Hz); with no further events, the
timed progression emits `2 Hz @0s`, `1 Hz @60s`, `0.5 Hz @360s`,
`steady-On @1260s` (`Fast` → `Med` after 60 s, `Med` → `Slow` after 300 s,
`Slow` → `Off` after 900 s); a `LedSet` in `Fast`/`Med`/`Slow` returns to
`Fast`, whose timer is 60 s; a `LedClear` in any state moves to `Off`. -/
theorem blink_progression :
    stepEvent .Off .LedSet = .Fast ∧
    displayCmd .Fast = some .TWO_HZ ∧
    runNoEvents 4 .Fast 0 = [(0, .TWO_HZ), (60, .ONE_HZ), (360, .HALF_HZ), (1260, .ON)] ∧
    stepTimer .Fast = .Med ∧ timerDur .Fast = some 60 ∧ displayCmd .Med = some .ONE_HZ ∧
    stepTimer .Med = .Slow ∧ timerDur .Med = some 300 ∧ displayCmd .Slow = some .HALF_HZ ∧
    stepTimer .Slow = .Off ∧ timerDur .Slow = some 900 ∧ displayCmd .Off = some .ON ∧
    stepEvent .Fast .LedSet = .Fast ∧
    stepEvent .Med .LedSet = .Fast ∧
    stepEvent .Slow .LedSet = .Fast ∧
    stepEvent .Init .LedClear = .Off ∧
    stepEvent .Off .LedClear = .Off ∧
    stepEvent .Fast .LedClear = .Off ∧
    stepEvent .Med .LedClear = .Off ∧
    stepEvent .Slow .LedClear = .Off := by
  decide

@[simp]
lemma updateDisplayBuffer_buffer (st : Bargraph) (row col : Nat) (e : Bool) (r c : Nat) :
    (updateDisplayBuffer st row col e).buffer r c =
      if r = row ∧ c = col then e else st.buffer r c := rfl

@[simp]
lemma updateDisplayBuffer_busWrites (st : Bargraph) (row col : Nat) (e : Bool) :
    (updateDisplayBuffer st row col e).busWrites = st.busWrites := rfl

@[simp]
lemma writeDisplayBuffer_buffer (st : Bargraph) :
    (writeDisplayBuffer st).buffer = st.buffer := rfl

@[simp]
lemma writeDisplayBuffer_busWrites (st : Bargraph) :
    (writeDisplayBuffer st).busWrites = st.busWrites + 1 := rfl

lemma led_row_add_eight_ne (num : Nat) : ¬ led_row num + 8 = led_row num := by
  omega

/-- Characterization of `set_led_no` on an in-range LED number: the call
succeeds, the red cell `(led_row num, led_col num)` ends up set exactly for
`Red | Yellow`, the green cell `(led_row num + 8, led_col num)` exactly for
`Green | Yellow`, every other cell is untouched, and exactly one bus write
happens. -/
lemma set_led_no_spec (num : Nat) (color : LedColor) (st : Bargraph) (h : num ≤ 23) :
    (set_led_no num color st).1 = .ok () ∧
    ((set_led_no num color st).2.buffer (led_row num) (led_col num) = true ↔
      (color = .Red ∨ color = .Yellow)) ∧
    ((set_led_no num color st).2.buffer (led_row num + 8) (led_col num) = true ↔
      (color = .Green ∨ color = .Yellow)) ∧
    (∀ r c, ¬(r = led_row num ∧ c = led_col num) →
      ¬(r = led_row num + 8 ∧ c = led_col num) →
      (set_led_no num color st).2.buffer r c = st.buffer r c) ∧
    (set_led_no num color st).2.busWrites = st.busWrites + 1 := by
  have hng : ¬ num > 23 := by omega
  refine ⟨?_, ?_, ?_, ?_, ?_⟩
  · simp [set_led_no, hng]
  · cases color <;> simp [set_led_no, hng, led_row_add_eight_ne]
  · cases color <;> simp [set_led_no, hng, led_row_add_eight_ne]
  · intro r c h1 h2
    cases color <;> simp [set_led_no, hng, h1, h2]
  · cases color <;> simp [set_led_no, hng]

/-- C2: for every `num ≤ 23` and every color, `Bargraph::set_led_no`
addresses the red cell at row `(num mod 4) + (4 if num ≥ 12 else 0)`,
column `(num div 4) mod 3`, and the green cell at `(row + 8, col)`; it
enables the red cell iff the color is `Red` or `Yellow`, enables the green
cell iff the color is `Green` or `Yellow` (so `Off` leaves both cleared),
and touches no other cell. -/
theorem set_led_no_mapping (num : Nat) (color : LedColor) (st : Bargraph) (h : num ≤ 23) :
    led_row num = num % 4 + (if 12 ≤ num then 4 else 0) ∧
    led_col num = (num / 4) % 3 ∧
    (set_led_no num color st).1 = .ok () ∧
    ((set_led_no num color st).2.buffer (led_row num) (led_col num) = true ↔
      (color = .Red ∨ color = .Yellow)) ∧
    ((set_led_no num color st).2.buffer (led_row num + 8) (led_col num) = true ↔
      (color = .Green ∨ color = .Yellow)) ∧
    (∀ r c, ¬(r = led_row num ∧ c = led_col num) →
      ¬(r = led_row num + 8 ∧ c = led_col num) →
      (set_led_no num color st).2.buffer r c = st.buffer r c) := by
  have hs := set_led_no_spec num color st h
  refine ⟨?_, rfl, hs.1, hs.2.1, hs.2.2.1, hs.2.2.2.1⟩
  unfold led_row
  split <;> omega

/-- Witness for `set_led_no_mapping` at `num = 5`, `color = Yellow`:
LED 5 maps to red cell `(1, 1)` and green cell `(9, 1)`, and `Yellow`
enables both. -/
theorem set_led_no_mapping_witness :
    led_row 5 = 5 % 4 + (if 12 ≤ 5 then 4 else 0) ∧
    led_col 5 = (5 / 4) % 3 ∧
    (set_led_no 5 .Yellow bgInit).1 = .ok () ∧
    (set_led_no 5 .Yellow bgInit).2.buffer (led_row 5) (led_col 5) = true ∧
    (set_led_no 5 .Yellow bgInit).2.buffer (led_row 5 + 8) (led_col 5) = true := by
  have h := set_led_no_mapping 5 .Yellow bgInit (by decide)
  exact ⟨h.1, h.2.1, h.2.2.1, h.2.2.2.1.mpr (Or.inr rfl), h.2.2.2.2.1.mpr (Or.inr rfl)⟩

/-- Wire request of the `led/set` endpoint
(`src/proto/src/bargraph.rs`, `struct SetLed { num, color }`). -/
structure SetLed where
  num : Nat
  color : LedColor

/-- Wire request of the `led/notify` endpoint
(`src/proto/src/bargraph.rs`, `struct Notify { num, status }`). -/
structure Notify where
  num : Nat
  status : Status

/-- Wire request of the `led/ack` endpoint as consumed by the server handler
(`src/server/src/tasks.rs` lines 129 and 139–161): the handler destructures
`Ack { num }` and matches `num` against `Some`/`None`, so `num` is an
optional LED number. -/
structure Ack where
  num : Option Nat

/-- The `Ack` declaration as it stands in `src/proto/src/bargraph.rs`
lines 56–60: `pub struct Ack { pub num: u8, pub status: Status }` — a
mandatory `num` plus a `status` field.  This contradicts the server handler
(see `Ack` above), which requires `num: Option<u8>`; the two files cannot
typecheck against each other. -/
structure ProtoAck where
  num : Nat
  status : Status

/-- Reply payload `Result<(), RequestError>` built by the handlers
(`src/server/src/tasks.rs`, e.g. lines 40–44). -/
inductive RpcResult where
  | ok
  | err (e : RequestError)
deriving DecidableEq, Repr

/-- Reply selection shared by the handlers
(`if res.is_ok() { ...(Ok(())) } else { ...(Err(RequestError {})) }`). -/
def respOf (res : Except DriverError Unit) : RpcResult :=
  match res with
  | .ok _ => .ok
  | .error _ => .err .mk

/-- Externally visible actions a request handler performs, in program order:
a driver call, a send on the blinker channel, a reply datagram sent to the
peer. -/
inductive Action where
  | driverSetLed (num : Nat) (color : LedColor)
  | driverClearAll
  | blinkSend (info : BlinkInfo)
  | replySend (resp : RpcResult)
deriving DecidableEq, Repr

/-- Handler of `led/set` (`src/server/src/tasks.rs` lines 22–49,
`handlers::set_led`): one `set_led_no` driver call, then the reply; no
blinker event. -/
def set_led (req : SetLed) (st : Bargraph) : List Action × Bargraph :=
  let out := set_led_no req.num req.color st
  ([.driverSetLed req.num req.color, .replySend (respOf out.1)], out.2)

/-- Status-to-color projection of the notify handler
(`src/server/src/tasks.rs` lines 99–103). -/
def statusColor : Status → LedColor
  | .Ok => .Green
  | .Warning => .Yellow
  | .Error => .Red

/-- Handler of `led/notify` (`src/server/src/tasks.rs` lines 85–120,
`handlers::notify`): paints the LED with the color projected from the
status, then sends `LedSet` on the blinker channel (line 116), then sends
the reply (lines 117–119). -/
def notify (req : Notify) (st : Bargraph) : List Action × Bargraph :=
  let color := statusColor req.status
  let out := set_led_no req.num color st
  ([.driverSetLed req.num color, .blinkSend .LedSet, .replySend (respOf out.1)], out.2)

/-- Handler of `led/ack` (`src/server/src/tasks.rs` lines 122–167,
`handlers::ack`): with `num` present it sets that LED `Off`, otherwise it
calls `clear_all`; it then sends `LedClear` on the blinker channel
(line 163), then sends the reply (lines 164–166). -/
def ack (req : Ack) (st : Bargraph) : List Action × Bargraph :=
  match req.num with
  | some n =>
    let out := set_led_no n .Off st
    ([.driverSetLed n .Off, .blinkSend .LedClear, .replySend (respOf out.1)], out.2)
  | none =>
    let out := clear_all st
    ([.driverClearAll, .blinkSend .LedClear, .replySend (respOf out.1)], out.2)

/-- Membership test on an action trace. -/
def containsAction (a : Action) : List Action → Bool
  | [] => false
  | x :: xs => if x = a then true else containsAction a xs

/-- `precedes a b tr` holds when some occurrence of `a` in `tr` is followed,
strictly later, by an occurrence of `b`. -/
def precedes (a b : Action) : List Action → Bool
  | [] => false
  | x :: xs => if x = a then containsAction b xs else precedes a b xs

/-- C3: for every `num > 23` and every color, `set_led_no` fails with the
out-of-range error and returns the state unchanged — no display-buffer
update and no bus write — and the `set_led` handler turns this into a trace
whose reply carries `Err(RequestError)`. -/
theorem set_led_no_out_of_range (num : Nat) (color : LedColor) (st : Bargraph)
    (h : 23 < num) :
    set_led_no num color st = (.error .OutOfRange, st) ∧
    set_led ⟨num, color⟩ st =
      ([.driverSetLed num color, .replySend (.err .mk)], st) := by
  have he : set_led_no num color st = (.error .OutOfRange, st) := by
    unfold set_led_no
    exact if_pos h
  refine ⟨he, ?_⟩
  unfold set_led
  rw [he]
  rfl

/-- Witness for `set_led_no_out_of_range` at `num = 24`: the driver rejects
the request and the handler replies `Err(RequestError)`. -/
theorem set_led_no_out_of_range_witness :
    set_led_no 24 .Green bgInit = (.error .OutOfRange, bgInit) ∧
    set_led ⟨24, .Green⟩ bgInit =
      ([.driverSetLed 24 .Green, .replySend (.err .mk)], bgInit) :=
  set_led_no_out_of_range 24 .Green bgInit (by decide)

/-- C4 counterexample: on the concrete requests `Notify{num=1, status=Ok}`
and `Ack{num=Some 1}` against a cleared bargraph, the handler trace contains
the blinker-channel send strictly before the reply send, and no reply send
ever comes before the blinker send — refuting the claim that the event is
pushed only after the reply datagram has been sent. -/
theorem blink_event_after_reply_counterexample :
    precedes (.replySend .ok) (.blinkSend .LedSet) (notify ⟨1, .Ok⟩ bgInit).1 = false ∧
    precedes (.blinkSend .LedSet) (.replySend .ok) (notify ⟨1, .Ok⟩ bgInit).1 = true ∧
    precedes (.replySend .ok) (.blinkSend .LedClear) (ack ⟨some 1⟩ bgInit).1 = false ∧
    precedes (.blinkSend .LedClear) (.replySend .ok) (ack ⟨some 1⟩ bgInit).1 = true := by
  decide

/-- C4 as amended: for every `Notify` and every `Ack` request, the handler
pushes its blinker event (`LedSet` for notify, `LedClear` for ack) into the
blinker channel *before* sending the reply datagram. -/
theorem blink_event_before_reply (n : Notify) (a : Ack) (st₁ st₂ : Bargraph) :
    (∃ r, precedes (.blinkSend .LedSet) (.replySend r) (notify n st₁).1 = true) ∧
    (∃ r, precedes (.blinkSend .LedClear) (.replySend r) (ack a st₂).1 = true) := by
  constructor
  · exact ⟨respOf (set_led_no n.num (statusColor n.status) st₁).1,
      by simp [notify, precedes, containsAction]⟩
  · rcases a with ⟨num⟩
    cases num with
    | none =>
      exact ⟨respOf (clear_all st₂).1, by simp [ack, precedes, containsAction]⟩
    | some m =>
      exact ⟨respOf (set_led_no m .Off st₂).1, by simp [ack, precedes, containsAction]⟩

/-- C5: behavior of the `ack` handler (`src/server/src/tasks.rs`
lines 122–167), whose `num` is an optional LED number: with `num = some n`
(`n ≤ 23`) it sets LED `n` to `Off` (both cells cleared), with `num = none`
it clears the whole display buffer, and in both cases it sends `LedClear`
on the blinker channel. -/
theorem ack_optional_num (n : Nat) (a : Ack) (st : Bargraph) (h : n ≤ 23) :
    (ack ⟨some n⟩ st).2.buffer (led_row n) (led_col n) = false ∧
    (ack ⟨some n⟩ st).2.buffer (led_row n + 8) (led_col n) = false ∧
    (∀ r c, (ack ⟨none⟩ st).2.buffer r c = false) ∧
    .blinkSend .LedClear ∈ (ack a st).1 := by
  have hs := set_led_no_spec n .Off st h
  refine ⟨?_, ?_, fun r c => rfl, ?_⟩
  · have := hs.2.1
    simp only [ack]
    revert this
    cases hb : (set_led_no n .Off st).2.buffer (led_row n) (led_col n) <;> simp
  · have := hs.2.2.1
    simp only [ack]
    revert this
    cases hb : (set_led_no n .Off st).2.buffer (led_row n + 8) (led_col n) <;> simp
  · rcases a with ⟨num⟩
    cases num <;> simp [ack]

/-- Witness for `ack_optional_num` at `n = 1` against a cleared bargraph:
acking LED 1 leaves its cells off, an ack without a number clears cell
`(3, 2)`, and the `LedClear` event is on the trace. -/
theorem ack_optional_num_witness :
    (ack ⟨some 1⟩ bgInit).2.buffer (led_row 1) (led_col 1) = false ∧
    (ack ⟨none⟩ bgInit).2.buffer 3 2 = false ∧
    .blinkSend .LedClear ∈ (ack ⟨some 1⟩ bgInit).1 := by
  have h := ack_optional_num 1 ⟨some 1⟩ bgInit (by decide)
  exact ⟨h.1, h.2.2.1 3 2, h.2.2.2⟩

/-- C9: for every `Notify{num, status}` request with `num ≤ 23`, the handler
paints LED `num` with the color projected from the status — `Ok ↦ Green`,
`Warning ↦ Yellow`, `Error ↦ Red` — i.e. the driver call on the trace uses
that color and the red/green cells of LED `num` end up enabled accordingly. -/
theorem notify_status_color (num : Nat) (status : Status) (st : Bargraph)
    (h : num ≤ 23) :
    statusColor .Ok = .Green ∧
    statusColor .Warning = .Yellow ∧
    statusColor .Error = .Red ∧
    Action.driverSetLed num (statusColor status) ∈ (notify ⟨num, status⟩ st).1 ∧
    ((notify ⟨num, status⟩ st).2.buffer (led_row num) (led_col num) = true ↔
      (statusColor status = .Red ∨ statusColor status = .Yellow)) ∧
    ((notify ⟨num, status⟩ st).2.buffer (led_row num + 8) (led_col num) = true ↔
      (statusColor status = .Green ∨ statusColor status = .Yellow)) := by
  have hs := set_led_no_spec num (statusColor status) st h
  exact ⟨rfl, rfl, rfl, by simp [notify], hs.2.1, hs.2.2.1⟩

/-- Witness for `notify_status_color` at `Notify{num=2, status=Warning}`:
the handler paints LED 2 yellow, enabling both the red and the green cell. -/
theorem notify_status_color_witness :
    statusColor .Warning = .Yellow ∧
    Action.driverSetLed 2 (statusColor .Warning) ∈ (notify ⟨2, .Warning⟩ bgInit).1 ∧
    (notify ⟨2, .Warning⟩ bgInit).2.buffer (led_row 2) (led_col 2) = true ∧
    (notify ⟨2, .Warning⟩ bgInit).2.buffer (led_row 2 + 8) (led_col 2) = true := by
  have h := notify_status_color 2 .Warning bgInit (by decide)
  exact ⟨h.2.1, h.2.2.2.1, h.2.2.2.2.1.mpr (by decide), h.2.2.2.2.2.mpr (by decide)⟩

/-- C10: for every `Notify` and every `Ack` request that reaches its handler,
the blinker event is sent unconditionally — the trace always contains
`LedSet` (notify) resp. `LedClear` (ack), the blinker reacts to those events
from any state (`LedSet ↦ Fast`, `LedClear ↦ Off`), and in particular for an
out-of-range `num > 23` the notify trace still carries the event even though
the reply is `Err(RequestError)`. -/
theorem blink_event_unconditional (num : Nat) (status : Status) (a : Ack)
    (st₁ st₂ : Bargraph) (s : BlinkState) (h : 23 < num) :
    Action.blinkSend .LedSet ∈ (notify ⟨num, status⟩ st₁).1 ∧
    Action.blinkSend .LedClear ∈ (ack a st₂).1 ∧
    stepEvent s .LedSet = .Fast ∧
    stepEvent s .LedClear = .Off ∧
    (notify ⟨num, status⟩ st₁).1 =
      [.driverSetLed num (statusColor status), .blinkSend .LedSet,
        .replySend (.err .mk)] := by
  have he : set_led_no num (statusColor status) st₁ = (.error .OutOfRange, st₁) := by
    unfold set_led_no
    exact if_pos h
  refine ⟨by simp [notify], ?_, rfl, rfl, ?_⟩
  · rcases a with ⟨n⟩
    cases n <;> simp [ack]
  · simp [notify, he, respOf]

/-- Witness for `blink_event_unconditional` at the out-of-range request
`Notify{num=24, status=Error}` and `Ack{num=Some 3}`, with the blinker in
`Med`. -/
theorem blink_event_unconditional_witness :
    Action.blinkSend .LedSet ∈ (notify ⟨24, .Error⟩ bgInit).1 ∧
    Action.blinkSend .LedClear ∈ (ack ⟨some 3⟩ bgInit).1 ∧
    stepEvent .Med .LedSet = .Fast ∧
    stepEvent .Med .LedClear = .Off ∧
    (notify ⟨24, .Error⟩ bgInit).1 =
      [.driverSetLed 24 (statusColor .Error), .blinkSend .LedSet,
        .replySend (.err .mk)] :=
  blink_event_unconditional 24 .Error ⟨some 3⟩ bgInit bgInit .Med (by decide)

/-- Operations `Lcd::write_msg` issues to the HD44780 driver
(`src/driver/src/lcd.rs`): clear the display, set the cursor to a linear
position, write one byte at the cursor. -/
inductive LcdOp where
  | Clear
  | SetCursorPos (pos : Nat)
  | WriteByte (b : Nat)
deriving DecidableEq, Repr

/-- Rust's `char::is_ascii` (`c as u32 <= 0x7F`), used by `write_msg` at
`src/driver/src/lcd.rs` line 100. -/
def isAscii (c : Char) : Bool :=
  c.toNat ≤ 127

/-- Reply status of the `lcd/msg` endpoint
(`src/proto/src/lcd.rs`, `enum MsgStatus { Ok, Truncated }`). -/
inductive MsgStatus where
  | Ok
  | Truncated
deriving DecidableEq, Repr

/-- Loop body of `Lcd::write_msg` (`src/driver/src/lcd.rs` lines 95–103):
for each character at index `i`, first `set_cursor_pos(i)` when
`i % 20 == 0 && i != 0`, then `write_byte(c as u8)` when `c.is_ascii()`. -/
def write_msg_loop : List Char → Nat → List LcdOp
  | [], _ => []
  | c :: cs, i =>
    (if i % 20 = 0 ∧ i ≠ 0 then [LcdOp.SetCursorPos i] else []) ++
    (if isAscii c then [LcdOp.WriteByte c.toNat] else []) ++
    write_msg_loop cs (i + 1)

/-- `Lcd::write_msg(msg)` (`src/driver/src/lcd.rs` lines 90–106) as the
sequence of operations it issues: clear, cursor to position 0, then the
per-character loop.  The Rust method itself always returns `Ok(0)`. -/
def write_msg (msg : List Char) : List LcdOp :=
  [LcdOp.Clear, LcdOp.SetCursorPos 0] ++ write_msg_loop msg 0

/-- Interface-level model of the external HD44780 display as configured by
`Lcd::initialize` (`set_display_size(DisplaySize::new(20, 4))`): a cursor
holding a linear position and the displayed byte at each linear position;
linear position `p` shows at row `p / 20`, column `p % 20`. -/
structure LcdDisplay where
  cursor : Nat
  ddram : Nat → Option Nat

/-- Effect of one driver operation on the modelled display: `clear` blanks
the display and homes the cursor, `set_cursor_pos` moves the cursor, and
`write_byte` stores a byte at the cursor and advances it by one. -/
def lcdApply (d : LcdDisplay) : LcdOp → LcdDisplay
  | .Clear => { cursor := 0, ddram := fun _ => none }
  | .SetCursorPos p => { d with cursor := p }
  | .WriteByte b =>
    { cursor := d.cursor + 1,
      ddram := fun p => if p = d.cursor then some b else d.ddram p }

/-- Power-on display: blank, cursor at 0. -/
def lcdInit : LcdDisplay :=
  { cursor := 0, ddram := fun _ => none }

/-- Display reached by running a list of operations from power-on. -/
def lcdRun (ops : List LcdOp) : LcdDisplay :=
  ops.foldl lcdApply lcdInit

/-- Byte shown at `(row, col)` of the 20-column display. -/
def charAt (d : LcdDisplay) (row col : Nat) : Option Nat :=
  d.ddram (20 * row + col)

/-- Bytes written to the display, in order, by a list of operations. -/
def writtenBytes : List LcdOp → List Nat
  | [] => []
  | .WriteByte b :: rest => b :: writtenBytes rest
  | .Clear :: rest => writtenBytes rest
  | .SetCursorPos _ :: rest => writtenBytes rest

/-- Modelled from the spec: the `send_msg` handler is registered in
`src/server/src/lib.rs` (line 241, dispatching to `tasks::handlers::send_msg`)
but its body is absent from `src/server/src/tasks.rs` in this tree.  Per the
spec, `SendMsg` "returns `{Ok | Truncated}` (Truncated reserved for when
text exceeds 80 chars)", so the reply status is `Truncated` exactly when
the message exceeds the 80 characters of the 20×4 display and `Ok`
otherwise. -/
def send_msg_status (msg : List Char) : MsgStatus :=
  if msg.length > 80 then .Truncated else .Ok

@[simp]
lemma writtenBytes_append (a b : List LcdOp) :
    writtenBytes (a ++ b) = writtenBytes a ++ writtenBytes b := by
  induction a with
  | nil => rfl
  | cons x xs ih => cases x <;> simp [writtenBytes, ih]

lemma writtenBytes_loop (cs : List Char) :
    ∀ i, writtenBytes (write_msg_loop cs i) =
      (cs.filter isAscii).map Char.toNat := by
  induction cs with
  | nil => intro i; rfl
  | cons c cs ih =>
    intro i
    by_cases hc : isAscii c = true <;>
      by_cases hi : i % 20 = 0 ∧ i ≠ 0 <;>
        simp [write_msg_loop, hc, hi, writtenBytes, ih, List.filter]

@[simp]
lemma lcdApply_clear (d : LcdDisplay) :
    lcdApply d .Clear = { cursor := 0, ddram := fun _ => none } := rfl

@[simp]
lemma lcdApply_setpos (d : LcdDisplay) (p : Nat) :
    lcdApply d (.SetCursorPos p) = { d with cursor := p } := rfl

@[simp]
lemma lcdApply_write (d : LcdDisplay) (b : Nat) :
    lcdApply d (.WriteByte b) =
      { cursor := d.cursor + 1,
        ddram := fun p => if p = d.cursor then some b else d.ddram p } := rfl

/-- Running the `write_msg` loop on an all-ASCII tail from a display whose
cursor sits at the tail's starting index writes each character at its index,
leaves earlier positions untouched, and leaves the cursor one past the end. -/
lemma write_msg_loop_render (cs : List Char) :
    ∀ (i : Nat) (d : LcdDisplay), d.cursor = i → (∀ c ∈ cs, isAscii c = true) →
      (((write_msg_loop cs i).foldl lcdApply d).cursor = i + cs.length ∧
       (∀ p, p < i → ((write_msg_loop cs i).foldl lcdApply d).ddram p = d.ddram p) ∧
       (∀ j c, cs.get? j = some c →
         ((write_msg_loop cs i).foldl lcdApply d).ddram (i + j) = some c.toNat)) := by
  induction cs with
  | nil =>
    intro i d hcur _
    refine ⟨by simpa [write_msg_loop] using hcur, fun p _ => rfl, fun j c hj => ?_⟩
    simp [List.get?] at hj
  | cons c cs ih =>
    intro i d hcur hascii
    have hcasc : isAscii c = true := hascii c (by simp)
    have hrest : ∀ x ∈ cs, isAscii x = true := fun x hx => hascii x (by simp [hx])
    have key : ∀ d1 : LcdDisplay, d1.cursor = i → d1.ddram = d.ddram →
        (((write_msg_loop cs (i + 1)).foldl lcdApply
            (lcdApply d1 (.WriteByte c.toNat))).cursor = i + (c :: cs).length ∧
         (∀ p, p < i → ((write_msg_loop cs (i + 1)).foldl lcdApply
            (lcdApply d1 (.WriteByte c.toNat))).ddram p = d.ddram p) ∧
         (∀ j x, (c :: cs).get? j = some x →
           ((write_msg_loop cs (i + 1)).foldl lcdApply
            (lcdApply d1 (.WriteByte c.toNat))).ddram (i + j) = some x.toNat)) := by
      intro d1 hc1 hdd1
      have hc2 : (lcdApply d1 (.WriteByte c.toNat)).cursor = i + 1 := by
        simp [hc1]
      obtain ⟨ihc, ihf, ihg⟩ := ih (i + 1) (lcdApply d1 (.WriteByte c.toNat)) hc2 hrest
      refine ⟨?_, ?_, ?_⟩
      · rw [ihc]
        simp only [List.length_cons]
        omega
      · intro p hp
        rw [ihf p (by omega)]
        simp only [lcdApply_write, hc1, hdd1]
        rw [if_neg (by omega)]
      · intro j x hj
        cases j with
        | zero =>
          have hx : c = x := by simpa using hj
          subst hx
          have hfi := ihf i (by omega)
          simp only [Nat.add_zero]
          rw [hfi]
          simp [hc1]
        | succ j' =>
          have hj' : cs.get? j' = some x := by simpa using hj
          rw [show i + (j' + 1) = (i + 1) + j' by omega]
          exact ihg j' x hj'
    by_cases hi : i % 20 = 0 ∧ i ≠ 0
    · have hsh : write_msg_loop (c :: cs) i =
          .SetCursorPos i :: .WriteByte c.toNat :: write_msg_loop cs (i + 1) := by
        simp [write_msg_loop, hcasc, hi]
      rw [hsh]
      simp only [List.foldl_cons]
      exact key { d with cursor := i } rfl rfl
    · have hsh : write_msg_loop (c :: cs) i =
          .WriteByte c.toNat :: write_msg_loop cs (i + 1) := by
        simp [write_msg_loop, hcasc, hi]
      rw [hsh]
      simp only [List.foldl_cons]
      exact key d hcur rfl

/-- Whenever index `j` (with `j % 20 = 0`, `j ≠ 0`) falls inside the stretch
of the message processed by the loop, the loop emits the explicit cursor
reposition `SetCursorPos j`. -/
lemma setcursor_mem_loop (cs : List Char) :
    ∀ i j, j % 20 = 0 → j ≠ 0 → i ≤ j → j < i + cs.length →
      LcdOp.SetCursorPos j ∈ write_msg_loop cs i := by
  induction cs with
  | nil =>
    intro i j _ _ hle hlt
    simp only [List.length_nil] at hlt
    omega
  | cons c cs ih =>
    intro i j hm hz hle hlt
    by_cases hij : j = i
    · subst hij
      simp [write_msg_loop, hm, hz]
    · have hge : i + 1 ≤ j := by omega
      have hlt' : j < (i + 1) + cs.length := by
        simp only [List.length_cons] at hlt
        omega
      have hmem := ih (i + 1) j hm hz hge hlt'
      simp [write_msg_loop, List.mem_append]
      tauto

/-- C6: for every message, `write_msg` starts by clearing the display and
homing the cursor to position 0 (row 0); the bytes written, in order, are
exactly the ASCII characters of the message (non-ASCII characters are
silently skipped); for an all-ASCII message the `k`-th character shows at
row `k / 20`, column `k % 20` of the 20-column display — so characters
0..19 land on row 0 and 20..24 on row 1 — thanks to an explicit cursor
reposition emitted at every index that is a nonzero multiple of 20; and the
reply status (spec-modelled `send_msg` handler) is `Truncated` exactly when
the message exceeds 80 characters, `Ok` otherwise. -/
theorem write_msg_spec (msg : List Char) :
    (send_msg_status msg = .Truncated ↔ 80 < msg.length) ∧
    (write_msg msg).take 2 = [.Clear, .SetCursorPos 0] ∧
    writtenBytes (write_msg msg) = (msg.filter isAscii).map Char.toNat ∧
    ((∀ c ∈ msg, isAscii c = true) → ∀ k c, msg.get? k = some c →
      charAt (lcdRun (write_msg msg)) (k / 20) (k % 20) = some c.toNat) ∧
    (∀ j, j % 20 = 0 → j ≠ 0 → j < msg.length →
      LcdOp.SetCursorPos j ∈ write_msg msg) := by
  refine ⟨?_, rfl, ?_, ?_, ?_⟩
  · unfold send_msg_status
    split_ifs with h <;> simp [h]
  · simp [write_msg, writtenBytes, writtenBytes_loop]
  · intro hascii k c hk
    obtain ⟨-, -, hget⟩ := write_msg_loop_render msg 0
      { cursor := 0, ddram := fun _ => none } rfl hascii
    have hmain := hget k c hk
    simp only [Nat.zero_add] at hmain
    have hdm : 20 * (k / 20) + k % 20 = k := Nat.div_add_mod k 20
    show (lcdRun (write_msg msg)).ddram (20 * (k / 20) + k % 20) = some c.toNat
    rw [hdm]
    exact hmain
  · intro j hm hz hlen
    have hmem := setcursor_mem_loop msg 0 j hm hz (Nat.zero_le j)
      (by simpa using hlen)
    simp only [write_msg]
    exact List.mem_append.mpr (Or.inr hmem)

/-- A 25-character all-ASCII message, for instantiating `write_msg_spec`. -/
def m25 : List Char := "ABCDEFGHIJKLMNOPQRSTUVWXY".toList

/-- A message with a non-ASCII character, for instantiating
`write_msg_spec`. -/
def mMixed : List Char := "naïve".toList

/-- Witness for `write_msg_spec`: on a message containing a non-ASCII
character the written bytes are its ASCII filter; on the 25-character
message `m25` the character at index 20 (`'U'`) shows at row 1, column 0,
and the cursor reposition `SetCursorPos 20` is emitted. -/
theorem write_msg_spec_witness :
    writtenBytes (write_msg mMixed) = (mMixed.filter isAscii).map Char.toNat ∧
    charAt (lcdRun (write_msg m25)) (20 / 20) (20 % 20) = some ('U'.toNat) ∧
    LcdOp.SetCursorPos 20 ∈ write_msg m25 := by
  refine ⟨(write_msg_spec mMixed).2.2.1, ?_, ?_⟩
  · exact (write_msg_spec m25).2.2.2.1 (by decide) 20 'U' (by decide)
  · exact (write_msg_spec m25).2.2.2.2 20 (by decide) (by decide) (by decide)

/-- Client-side errors relevant to `Client::raw`
(`src/client/src/lib.rs`, `enum Error`): a reply whose header mismatches
(`BadResponse`) and an exhausted retry budget (`NoResponse`), each carrying
a `(seq_no, key)` pair. -/
inductive ClientError where
  | BadResponse (hdr : Nat × Nat)
  | NoResponse (hdr : Nat × Nat)
deriving DecidableEq, Repr

/-- Outcome of a `Client::raw` call: the headers of the request datagrams
sent, in order, and either the reply payload together with the number of
retries consumed, or an error. -/
structure RawResult (β : Type) where
  sent : List (Nat × Nat)
  result : Except ClientError (β × Nat)

/-- The send/receive/retry loop of `Client::raw`
(`src/client/src/lib.rs` lines 210–242).  `env t` describes receive attempt
`t`: `none` for a read timeout (`WouldBlock`), `some (hdr, payload)` for a
received datagram.  Each iteration serializes the request with header
`(0, key)` and sends it; on a timeout with `retry < retries` it increments
`retry` and loops, otherwise it fails with `NoResponse (0, key)`; on a
received datagram it leaves the loop and checks the reply header: if
`hdr = (0, key)` it returns the payload and the retry counter, otherwise it
fails with `BadResponse hdr`. -/
def raw_go (retries key : Nat) (env : Nat → Option ((Nat × Nat) × β))
    (retry : Nat) (sentAcc : List (Nat × Nat)) : RawResult β :=
  let sent := sentAcc ++ [(0, key)]
  match env retry with
  | some (hdr, payload) =>
    if hdr.1 = 0 ∧ hdr.2 = key then ⟨sent, .ok (payload, retry)⟩
    else ⟨sent, .error (.BadResponse hdr)⟩
  | none =>
    if _h : retry < retries then raw_go retries key env (retry + 1) sent
    else ⟨sent, .error (.NoResponse (0, key))⟩
termination_by retries - retry
decreasing_by omega

/-- `Client::raw` with a configured retry budget: run the loop from
`retry = 0` with no datagram sent yet. -/
def raw (retries key : Nat) (env : Nat → Option ((Nat × Nat) × β)) : RawResult β :=
  raw_go retries key env 0 []

/-- Environment of a server that drops the first `k` request datagrams and
then replies correctly (header `(0, key)`) to every later one. -/
def dropEnv (k key : Nat) (payload : β) : Nat → Option ((Nat × Nat) × β) :=
  fun t => if t < k then none else some ((0, key), payload)

lemma raw_go_drop_ok (r k key p : Nat) (hk : k ≤ r) :
    ∀ n retry acc, k - retry ≤ n → retry ≤ k →
      (raw_go r key (dropEnv k key p) retry acc).result = .ok (p, k) := by
  intro n
  induction n with
  | zero =>
    intro retry acc hn hle
    have heq : retry = k := by omega
    subst heq
    rw [raw_go]
    simp [dropEnv]
  | succ n ih =>
    intro retry acc hn hle
    by_cases heq : retry = k
    · subst heq
      rw [raw_go]
      simp [dropEnv]
    · have hlt : retry < k := by omega
      rw [raw_go]
      simp only [dropEnv, if_pos hlt]
      rw [dif_pos (by omega)]
      exact ih (retry + 1) _ (by omega) (by omega)

lemma raw_go_drop_timeout (r k key p : Nat) (hk : r < k) :
    ∀ n retry acc, r - retry ≤ n → retry ≤ r →
      (raw_go r key (dropEnv k key p) retry acc).result =
        .error (.NoResponse (0, key)) := by
  intro n
  induction n with
  | zero =>
    intro retry acc hn hle
    have heq : retry = r := by omega
    subst heq
    rw [raw_go]
    simp only [dropEnv, if_pos (by omega : retry < k)]
    rw [dif_neg (by omega)]
  | succ n ih =>
    intro retry acc hn hle
    by_cases heq : retry = r
    · subst heq
      rw [raw_go]
      simp only [dropEnv, if_pos (by omega : retry < k)]
      rw [dif_neg (by omega)]
    · have hlt : retry < r := by omega
      rw [raw_go]
      simp only [dropEnv, if_pos (by omega : retry < k)]
      rw [dif_pos (by omega)]
      exact ih (retry + 1) _ (by omega) (by omega)

/-- C7: against a server that drops the first `k` request datagrams, a
`Client::raw` call configured with `r` retries succeeds when `k ≤ r` and
returns retry counter `k` (the `ConnHealth` value), and fails with
`NoResponse` when `k > r` (all `r + 1` attempts time out). -/
theorem raw_retry_counter (r k key p : Nat) :
    (k ≤ r → (raw r key (dropEnv k key p)).result = .ok (p, k)) ∧
    (r < k → (raw r key (dropEnv k key p)).result =
      .error (.NoResponse (0, key))) := by
  constructor
  · intro hk
    exact raw_go_drop_ok r k key p hk k 0 [] (by omega) (by omega)
  · intro hk
    exact raw_go_drop_timeout r k key p hk r 0 [] (by omega) (by omega)

/-- Witness for `raw_retry_counter`: with 3 configured retries and the first
2 datagrams dropped the call returns payload 7 with retry counter 2; with
1 configured retry and the first 5 dropped it fails with `NoResponse`. -/
theorem raw_retry_counter_witness :
    (raw 3 11 (dropEnv 2 11 7)).result = .ok (7, 2) ∧
    (raw 1 11 (dropEnv 5 11 7)).result = .error (.NoResponse (0, 11)) :=
  ⟨(raw_retry_counter 3 2 11 7).1 (by decide),
   (raw_retry_counter 1 5 11 7).2 (by decide)⟩

lemma raw_go_sent_all (retries key : Nat) (env : Nat → Option ((Nat × Nat) × β)) :
    ∀ n retry acc, retries - retry ≤ n → (∀ x ∈ acc, x = (0, key)) →
      ∀ x ∈ (raw_go retries key env retry acc).sent, x = (0, key) := by
  intro n
  induction n with
  | zero =>
    intro retry acc hn hacc x hx
    rw [raw_go] at hx
    have hsent : ∀ y ∈ acc ++ [((0 : Nat), key)], y = (0, key) := by
      intro y hy
      rcases List.mem_append.mp hy with h | h
      · exact hacc y h
      · simpa using h
    have hsent2 : ∀ y : Nat × Nat, (y ∈ acc ∨ y = (0, key)) → y = (0, key) := by
      intro y hy
      rcases hy with h | h
      · exact hacc y h
      · exact h
    revert hx
    cases henv : env retry with
    | some pr =>
      rcases pr with ⟨hdr, payload⟩
      by_cases hh : hdr.1 = 0 ∧ hdr.2 = key <;> simp [hh] <;> intro hx <;>
        exact hsent2 x hx
    | none =>
      rw [dif_neg (by omega)]
      intro hx
      exact hsent x hx
  | succ n ih =>
    intro retry acc hn hacc x hx
    rw [raw_go] at hx
    have hsent : ∀ y ∈ acc ++ [((0 : Nat), key)], y = (0, key) := by
      intro y hy
      rcases List.mem_append.mp hy with h | h
      · exact hacc y h
      · simpa using h
    have hsent2 : ∀ y : Nat × Nat, (y ∈ acc ∨ y = (0, key)) → y = (0, key) := by
      intro y hy
      rcases hy with h | h
      · exact hacc y h
      · exact h
    revert hx
    cases henv : env retry with
    | some pr =>
      rcases pr with ⟨hdr, payload⟩
      by_cases hh : hdr.1 = 0 ∧ hdr.2 = key <;> simp [hh] <;> intro hx <;>
        exact hsent2 x hx
    | none =>
      by_cases hr : retry < retries
      · rw [dif_pos hr]
        intro hx
        exact ih (retry + 1) _ (by omega) hsent x hx
      · rw [dif_neg hr]
        intro hx
        exact hsent x hx

/-- C8: every request datagram sent by `Client::raw` carries the header
`(seq_no = 0, key)` for the endpoint's key; when a reply arrives on the
first attempt, the client returns the payload exactly when the reply header
equals `(0, key)`, and otherwise fails with `BadResponse` carrying the
received header. -/
theorem raw_header_check (retries key : Nat)
    (env : Nat → Option ((Nat × Nat) × Nat)) (hdr : Nat × Nat) (p : Nat) :
    (∀ x ∈ (raw retries key env).sent, x = (0, key)) ∧
    (env 0 = some (hdr, p) → hdr = (0, key) →
      (raw retries key env).result = .ok (p, 0)) ∧
    (env 0 = some (hdr, p) → hdr ≠ (0, key) →
      (raw retries key env).result = .error (.BadResponse hdr)) := by
  refine ⟨?_, ?_, ?_⟩
  · exact raw_go_sent_all retries key env retries 0 [] (by omega) (by simp)
  · intro henv hh
    subst hh
    unfold raw
    rw [raw_go, henv]
    simp
  · intro henv hh
    have hh' : ¬(hdr.1 = 0 ∧ hdr.2 = key) := by
      intro hc
      exact hh (Prod.ext hc.1 hc.2)
    unfold raw
    rw [raw_go, henv]
    simp [hh']

/-- Environment of a server that answers the first attempt with the correct
header `(0, 42)` and payload 7. -/
def replyEnvGood : Nat → Option ((Nat × Nat) × Nat) :=
  fun _ => some ((0, 42), 7)

/-- Environment of a server that answers the first attempt with the
mismatching header `(5, 9)`. -/
def replyEnvBad : Nat → Option ((Nat × Nat) × Nat) :=
  fun _ => some ((5, 9), 7)

/-- Witness for `raw_header_check`: a matching reply header `(0, 42)` yields
the payload with 0 retries; a mismatching header `(5, 9)` yields
`BadResponse (5, 9)`. -/
theorem raw_header_check_witness :
    (raw 3 42 replyEnvGood).result = .ok (7, 0) ∧
    (raw 3 42 replyEnvBad).result = .error (.BadResponse (5, 9)) :=
  ⟨(raw_header_check 3 42 replyEnvGood (0, 42) 7).2.1 rfl rfl,
   (raw_header_check 3 42 replyEnvBad (5, 9) 7).2.2 rfl (by decide)⟩

end WbNotifier
